import Mathlib

/-!
Shallow embedding of `crawler.py` (Fudan University Course Data Crawler).

The source program has three parts:

* `fetch_courses(session, semester_id)`: probes the remote API once with
  `queryPage__ = "1,1"` to read `_page_.totalRows`, derives
  `total_pages = (total + PAGE_SIZE - 1) // PAGE_SIZE`, launches one task per
  page in `range(1, total_pages + 1)` (each task GETs
  `queryPage__ = f"{page},{PAGE_SIZE}"` and extracts `["data"]`), gathers the
  tasks with `tqdm_asyncio.gather` (which tags each task with its index, awaits
  completions, sorts by index), and flattens the pages.
* `transform(raw)`: maps one raw record to the normalized output dict using
  `dict.get` with defaults and nested subscripts.
* `main()`: drives the fetch, then `with open(output, "w") : json.dump([...])`.

Modelling choices:

* JSON values are modelled by the inductive `Json`; JSON numbers are modelled
  as integers (`Int`), because every numeric field this program touches
  (`totalRows`, `credits`) is integral in the API, and Python `float` values
  arising from them (`float(4) = 4.0`) keep their exact integer value.
* Python exceptions are modelled by `PyErr`; fallible evaluation returns
  `Except PyErr _`.  Network requests are modelled by a `Server` function from
  request parameters `(page, pageSize)` to the parsed JSON body or an error
  (transport failure, non-2xx status and malformed JSON all collapse into
  `PyErr.netError`, which is all the program distinguishes).
* Concurrency: all page tasks are launched together; the nondeterministic
  completion order is an explicit parameter `arrival` (a permutation of the
  task indices).  `tqdm_asyncio.gather` collects `(index, result)` pairs in
  completion order and sorts them by index; `gather` below does exactly that
  (with insertion sort standing in for Python's `sorted`).  A failing task
  makes the whole gather fail, modelled by `mapM` over `Except`.
* The driver's filesystem effect is modelled by `FileState`: `open(path, "w")`
  creates/truncates the file *before* the transform list comprehension is
  evaluated, so a transform error leaves an empty (truncated) file behind.
-/

inductive Json where
  | null
  | bool (b : Bool)
  | num (n : Int)
  | str (s : String)
  | arr (elems : List Json)
  | obj (fields : List (String × Json))

/-- Python exceptions the crawler can raise (network-layer failures collapsed
into `netError`). -/
inductive PyErr where
  | keyError (k : String)
  | attributeError
  | typeError
  | valueError
  | netError
deriving DecidableEq, Repr

/-- First-match lookup in a JSON object's field list (Python dict keys are
unique, so first match is the dict lookup). -/
def jlookup (k : String) : List (String × Json) → Option Json
  | [] => none
  | (k', v) :: rest => if k' = k then some v else jlookup k rest

/-- Python `d.get(k, default)` where `d` is known to be a dict. -/
def dictGet (fields : List (String × Json)) (k : String) (default : Json) : Json :=
  match jlookup k fields with
  | some v => v
  | none => default

/-- Python `x.get(k, default)` on an arbitrary value: only dicts have `.get`,
anything else raises `AttributeError`. -/
def pyGet (v : Json) (k : String) (default : Json) : Except PyErr Json :=
  match v with
  | .obj fields => .ok (dictGet fields k default)
  | _ => .error .attributeError

/-- Python `x[k]` with a string key: dict lookup (raising `KeyError` when the
key is absent); subscripting any non-dict with a string raises `TypeError`. -/
def pySubscript (v : Json) (k : String) : Except PyErr Json :=
  match v with
  | .obj fields =>
    match jlookup k fields with
    | some x => .ok x
    | none => .error (.keyError k)
  | _ => .error .typeError

/-- Python iteration `for x in v`: lists yield their elements, dicts yield
their keys, strings yield their one-character substrings; numbers, booleans
and `None` are not iterable (`TypeError`). -/
def pyIter (v : Json) : Except PyErr (List Json) :=
  match v with
  | .arr elems => .ok elems
  | .obj fields => .ok (fields.map (fun kv => .str kv.1))
  | .str s => .ok (s.data.map (fun c => .str (String.singleton c)))
  | _ => .error .typeError

/-- Python `int` arithmetic coercion of a JSON value (`bool` is an `int`
subtype; adding anything else to an `int` raises `TypeError`). -/
def asInt (v : Json) : Except PyErr Int :=
  match v with
  | .num n => .ok n
  | .bool b => .ok (if b then 1 else 0)
  | _ => .error .typeError

/-- Python `str` check used by `",".join(...)`: every joined element must be a
string, otherwise `TypeError`. -/
def asStr (v : Json) : Except PyErr String :=
  match v with
  | .str s => .ok s
  | _ => .error .typeError

/-- Python `float(v)`.  Numbers keep their (integral) value, booleans convert
to 0/1, integral numeric strings parse (non-integral floats are outside the
integer-valued `Json.num` model), other strings raise `ValueError`, and
non-number non-string values raise `TypeError`. -/
def pyFloat (v : Json) : Except PyErr Int :=
  match v with
  | .num n => .ok n
  | .bool b => .ok (if b then 1 else 0)
  | .str s =>
    match s.toNat? with
    | some n => .ok (n : Int)
    | none => .error .valueError
  | _ => .error .typeError

/-- `PAGE_SIZE = 1000` (crawler.py line 22). -/
def PAGE_SIZE : Nat := 1000

/-- The remote API, as the program sees it: a map from the request parameters
`(page, pageSize)` of `queryPage__ = f"{page},{size}"` to the parsed JSON
response body, or a failure (transport error, non-2xx status, malformed
JSON). -/
abbrev Server := Nat → Nat → Except PyErr Json

/-- `total_pages = (total + PAGE_SIZE - 1) // PAGE_SIZE` (crawler.py line 37);
Python `//` is floor division, i.e. `Int.fdiv`. -/
def total_pages (total : Int) : Int :=
  (total + (PAGE_SIZE : Int) - 1).fdiv (PAGE_SIZE : Int)

/-- `range(1, total_pages + 1)`: the 1-based page indices, empty when
`total_pages <= 0`. -/
def pageIndices (tp : Int) : List Nat :=
  if tp ≤ 0 then [] else List.range' 1 tp.toNat

/-- Apply a fallible function to every element, failing on the first failure:
the all-or-nothing semantics of awaiting a group of tasks (`asyncio.gather`
propagates an exception from any task as the exception of the whole gather)
and of a list comprehension (the first raising element aborts the whole
comprehension). -/
def mapExcept {α β : Type} (f : α → Except PyErr β) : List α → Except PyErr (List β)
  | [] => .ok []
  | a :: t =>
    match f a with
    | .error e => .error e
    | .ok b =>
      match mapExcept f t with
      | .error e => .error e
      | .ok bs => .ok (b :: bs)

/-- Body of `fetch_page(page)` (crawler.py lines 40-42): GET the page at the
real page size, parse, and extract the `"data"` field. -/
def fetch_page (server : Server) (page : Nat) : Except PyErr Json := do
  let resp ← server page PAGE_SIZE
  pySubscript resp "data"

/-- One completed task, tagged with its launch index as `tqdm_asyncio.gather`
tags it: `wrap_awaitable(i, f)` returns `(i, await f)`. -/
abbrev Tagged := Nat × Json

/-- Reorder a list by a completion schedule: `arrival` lists the positions of
`l` in the order the corresponding tasks complete. -/
def permuteBy (l : List Tagged) (arrival : List Nat) : List Tagged :=
  arrival.filterMap (fun i => l[i]?)

/-- `tqdm_asyncio.gather`: tasks are tagged with their index, collected in
completion order (`arrival`), then `sorted` by index and untagged. -/
def gather (results : List Json) (arrival : List Nat) : List Json :=
  ((permuteBy results.enum arrival).insertionSort
    (fun a b => a.1 ≤ b.1)).map Prod.snd

/-- The outcome of one `fetch_courses` call: the list of `(page, pageSize)`
requests issued (probe first; page tasks are all launched before any can
fail, so a failure does not shorten the request list) and the returned value
or the propagated exception. -/
structure FetchOutcome where
  requests : List (Nat × Nat)
  result : Except PyErr (List Json)

/-- `fetch_courses(session, semester_id)` (crawler.py lines 28-46), with the
network abstracted into `server` and the nondeterministic completion order of
the concurrent page tasks into `arrival`.

Steps, in source order: probe request `queryPage__ = "1,1"`; read
`["_page_"]["totalRows"]` from its body; `total_pages` by floor division;
launch `fetch_page(p)` for `p in range(1, total_pages + 1)`; gather (any
task's exception fails the whole gather, modelled by `mapM`); flatten with
`[course for page in pages for course in page]` (which iterates each page
value, hence `pyIter`). -/
def fetch_courses (server : Server) (arrival : List Nat) : FetchOutcome :=
  match server 1 1 with
  | .error e => ⟨[(1, 1)], .error e⟩
  | .ok probe =>
    match (pySubscript probe "_page_" >>= fun p => pySubscript p "totalRows") >>= asInt with
    | .error e => ⟨[(1, 1)], .error e⟩
    | .ok total =>
      let ps := pageIndices (total_pages total)
      let reqs := (1, 1) :: ps.map (fun p => (p, PAGE_SIZE))
      match mapExcept (fetch_page server) ps with
      | .error e => ⟨reqs, .error e⟩
      | .ok datas =>
        match mapExcept pyIter (gather datas arrival) with
        | .error e => ⟨reqs, .error e⟩
        | .ok pages => ⟨reqs, .ok pages.flatten⟩

/-- The normalized record built by `transform` (crawler.py lines 49-57).  The
`name`, `no` and `department` values are whatever JSON value the lookup
produced (Python does not check their type); `teachers` is forced to a string
by `",".join`; `credits` is forced to a number by `float(...)` (integral in
this model). -/
structure NormRecord where
  name : Json
  no : Json
  teachers : String
  credits : Int
  department : Json

/-- `t["person"]["nameZh"]` for one element of the teacher list, as consumed
by `",".join` (which needs a string). -/
def teacherName (t : Json) : Except PyErr String := do
  let p ← pySubscript t "person"
  let nz ← pySubscript p "nameZh"
  asStr nz

/-- `transform(raw)` (crawler.py lines 49-57).  Fields are evaluated in the
order they appear in the dict display: name, no, teachers, credits,
department. -/
def transform (raw : Json) : Except PyErr NormRecord := do
  let course1 ← pyGet raw "course" (.obj [])
  let name ← pyGet course1 "nameZh" (.str "")
  let no ← pyGet raw "code" (.str "")
  let tl ← pyGet raw "teacherAssignmentList" (.arr [])
  let tlist ← pyIter tl
  let names ← mapExcept teacherName tlist
  let course2 ← pyGet raw "course" (.obj [])
  let creditsJ ← pyGet course2 "credits" (.num 0)
  let credits ← pyFloat creditsJ
  let dep ← pyGet raw "openDepartment" (.obj [])
  let department ← pyGet dep "nameZh" (.str "")
  return ⟨name, no, String.intercalate "," names, credits, department⟩

/-- JSON string escaping as `json.dump` performs it with `ensure_ascii=False`:
quote, backslash and ASCII control characters are escaped, everything else
(including non-ASCII) is passed through. -/
def jsonEscape (s : String) : String :=
  s.data.foldl
    (fun acc c =>
      if c = '\x22' then acc ++ "\\\x22"
      else if c = '\\' then acc ++ "\\\\"
      else if c.toNat < 32 then acc ++ "\\u" ++ (Nat.toDigits 16 c.toNat).asString
      else acc.push c)
    ""

/-- Serialization of one scalar JSON value as `json.dump` renders it (floats
produced by this program are integral, so `credits` renders as `n.0`). -/
def jsonScalar : Json → String
  | .null => "null"
  | .bool b => if b then "true" else "false"
  | .num n => toString n
  | .str s => "\x22" ++ jsonEscape s ++ "\x22"
  | .arr _ => "[...]"
  | .obj _ => "\x7b...\x7d"

/-- One normalized record as `json.dump(..., ensure_ascii=False, indent=2)`
renders it at nesting depth 1. -/
def serializeRecord (r : NormRecord) : String :=
  "  \x7b\n    \x22name\x22: " ++ jsonScalar r.name ++
  ",\n    \x22no\x22: " ++ jsonScalar r.no ++
  ",\n    \x22teachers\x22: \x22" ++ jsonEscape r.teachers ++
  "\x22,\n    \x22credits\x22: " ++ toString r.credits ++
  ".0,\n    \x22department\x22: " ++ jsonScalar r.department ++
  "\n  \x7d"

/-- The full output document: a JSON array of normalized records, indent 2. -/
def serializeOutput (recs : List NormRecord) : String :=
  match recs with
  | [] => "[]"
  | _ => "[\n" ++ String.intercalate ",\n" (recs.map serializeRecord) ++ "\n]"

/-- State of the output file after one driver run.  `untouched`: the run
failed before `open(args.output, "w")`.  `truncated`: `open(..., "w")` already
created/emptied the file, but the run failed before `json.dump` wrote
anything (the transform list comprehension is evaluated after the `open`).
`written s`: the run succeeded and the file holds exactly `s`. -/
inductive FileState where
  | untouched
  | truncated
  | written (content : String)
deriving DecidableEq, Repr

/-- Observable outcome of one driver run: process exit code and the state of
the output file. -/
structure RunOutcome where
  exitCode : Nat
  file : FileState
deriving DecidableEq, Repr

/-- `main()` (crawler.py lines 60-77), from `fetch_courses` on: an uncaught
exception in the fetch aborts the run before the output file is opened
(`asyncio.run` exits with status 1 on an uncaught exception); an uncaught
exception in `[transform(c) for c in raw]` aborts after `open(..., "w")` has
truncated the file; otherwise the serialized records are written and the
process exits 0.  (Named `main_run` because `main` is reserved.) -/
def main_run (server : Server) (arrival : List Nat) : RunOutcome :=
  match (fetch_courses server arrival).result with
  | .error _ => ⟨1, .untouched⟩
  | .ok raw =>
    match mapExcept transform raw with
    | .error _ => ⟨1, .truncated⟩
    | .ok recs => ⟨0, .written (serializeOutput recs)⟩

/-! ## Helper lemmas on lists, permutations and `Except.mapM` -/

theorem filterMap_getElem_range {α : Type} (l : List α) :
    (List.range l.length).filterMap (fun i => l[i]?) = l := by
  induction l with
  | nil => rfl
  | cons a t ih =>
    rw [List.length_cons, List.range_succ_eq_map, List.filterMap_cons, List.filterMap_map]
    simp only [List.getElem?_cons_zero, Function.comp_def, List.getElem?_cons_succ]
    exact congrArg (a :: ·) ih

theorem permuteBy_perm (l : List Tagged) (arrival : List Nat)
    (h : arrival.Perm (List.range l.length)) : (permuteBy l arrival).Perm l := by
  have h1 : (permuteBy l arrival).Perm
      ((List.range l.length).filterMap (fun i => l[i]?)) :=
    List.Perm.filterMap _ h
  rwa [filterMap_getElem_range] at h1

theorem sorted_lt_enum {α : Type} (l : List α) :
    List.Pairwise (fun a b : Nat × α => a.1 < b.1) l.enum := by
  rw [← List.pairwise_map (f := Prod.fst)]
  rw [List.enum_map_fst]
  exact List.pairwise_lt_range l.length

/-- Sorting any completion-order permutation of the tagged task list by task
index restores launch order: the heart of `tqdm_asyncio.gather`'s ordering
guarantee. -/
theorem insertionSort_perm_enum {α : Type} (l : List α) (completed : List (Nat × α))
    (h : completed.Perm l.enum) :
    (completed.insertionSort (fun a b => a.1 ≤ b.1)).map Prod.snd = l := by
  set r : Nat × α → Nat × α → Prop := fun a b => a.1 ≤ b.1 with hr
  haveI : IsTotal (Nat × α) r := ⟨fun a b => Nat.le_total a.1 b.1⟩
  haveI : IsTrans (Nat × α) r := ⟨fun _ _ _ => Nat.le_trans⟩
  have hperm : (completed.insertionSort r).Perm l.enum :=
    (List.perm_insertionSort r completed).trans h
  have hsorted_le : List.Pairwise r (completed.insertionSort r) :=
    List.sorted_insertionSort r completed
  have hnodup_fst : ((completed.insertionSort r).map Prod.fst).Nodup := by
    have := List.nodup_enum_map_fst l
    exact ((hperm.map Prod.fst).symm.nodup this)
  have hne : List.Pairwise (fun a b : Nat × α => a.1 ≠ b.1) (completed.insertionSort r) :=
    (List.pairwise_map.mp hnodup_fst)
  have hsorted_lt : List.Pairwise (fun a b : Nat × α => a.1 < b.1)
      (completed.insertionSort r) :=
    (hsorted_le.and hne).imp (fun hab => Nat.lt_of_le_of_ne hab.1 hab.2)
  have heq : completed.insertionSort r = l.enum := by
    haveI : IsAntisymm (Nat × α) (fun a b : Nat × α => a.1 < b.1) :=
      ⟨fun _ _ h1 h2 => absurd h2 (Nat.lt_asymm h1)⟩
    exact List.eq_of_perm_of_sorted hperm hsorted_lt (sorted_lt_enum l)
  rw [heq, List.enum_map_snd]

/-- `gather` restores launch order whenever the completion schedule is a
permutation of the task indices. -/
theorem gather_eq_of_perm (results : List Json) (arrival : List Nat)
    (h : arrival.Perm (List.range results.length)) :
    gather results arrival = results := by
  unfold gather
  apply insertionSort_perm_enum
  apply permuteBy_perm
  rwa [List.enum_length]

theorem mapExcept_ok_length {α β : Type} (f : α → Except PyErr β) :
    ∀ {l : List α} {out : List β}, mapExcept f l = .ok out → out.length = l.length := by
  intro l
  induction l with
  | nil =>
    intro out h
    cases h
    rfl
  | cons a t ih =>
    intro out h
    unfold mapExcept at h
    cases hfa : f a with
    | error e => rw [hfa] at h; exact absurd h (by simp)
    | ok b =>
      rw [hfa] at h
      cases hft : mapExcept f t with
      | error e => rw [hft] at h; exact absurd h (by simp)
      | ok bs =>
        rw [hft] at h
        cases h
        simp [ih hft]

theorem mapExcept_error_of_mem {α β : Type} (f : α → Except PyErr β) {l : List α} {x : α}
    (hx : x ∈ l) {e : PyErr} (hfx : f x = .error e) :
    ∃ e', mapExcept f l = .error e' := by
  induction l with
  | nil => cases hx
  | cons a t ih =>
    unfold mapExcept
    rcases List.mem_cons.mp hx with rfl | hxt
    · exact ⟨e, by rw [hfx]⟩
    · cases hfa : f a with
      | error e0 => exact ⟨e0, rfl⟩
      | ok b =>
        rcases ih hxt with ⟨e', he'⟩
        exact ⟨e', by rw [he']⟩

theorem mapExcept_ok_of_forall {α β : Type} (f : α → Except PyErr β) (g : α → β) :
    ∀ {l : List α}, (∀ x ∈ l, f x = .ok (g x)) → mapExcept f l = .ok (l.map g) := by
  intro l
  induction l with
  | nil => intro _; rfl
  | cons a t ih =>
    intro h
    unfold mapExcept
    rw [h a (List.mem_cons_self a t), ih (fun x hx => h x (List.mem_cons_of_mem a hx))]
    rfl

/-- On a nonnegative total, the source's floor-division page count is exactly
the ceiling division `totalRows ⌈/⌉ PAGE_SIZE`. -/
theorem total_pages_natCast (n : Nat) :
    total_pages (n : Int) = ((n ⌈/⌉ PAGE_SIZE : Nat) : Int) := by
  unfold total_pages
  rw [Int.fdiv_eq_ediv _ (by norm_num : (0:Int) ≤ (PAGE_SIZE : Int))]
  rw [Nat.ceilDiv_eq_add_pred_div]
  have h1 : (n : Int) + (PAGE_SIZE : Int) - 1 = ((n + PAGE_SIZE - 1 : Nat) : Int) := by
    have : 1 ≤ (PAGE_SIZE : Nat) := by norm_num [PAGE_SIZE]
    omega
  rw [h1, ← Int.ofNat_ediv]

theorem total_pages_nonpos {total : Int} (h : total ≤ 0) : total_pages total ≤ 0 := by
  unfold total_pages
  rw [Int.fdiv_eq_ediv _ (by norm_num : (0:Int) ≤ (PAGE_SIZE : Int))]
  have h2 : total + (PAGE_SIZE : Int) - 1 ≤ (PAGE_SIZE : Int) - 1 := by omega
  calc (total + (PAGE_SIZE : Int) - 1) / (PAGE_SIZE : Int)
      ≤ ((PAGE_SIZE : Int) - 1) / (PAGE_SIZE : Int) :=
        Int.ediv_le_ediv (by norm_num [PAGE_SIZE]) h2
    _ = 0 := by norm_num [PAGE_SIZE]

theorem pageIndices_nonpos {tp : Int} (h : tp ≤ 0) : pageIndices tp = [] := by
  unfold pageIndices
  simp [h]

theorem pageIndices_natCast (m : Nat) : pageIndices (m : Int) = List.range' 1 m := by
  unfold pageIndices
  rcases Nat.eq_zero_or_pos m with rfl | hm
  · simp
  · rw [if_neg (by exact_mod_cast Nat.not_le.mpr hm)]
    simp

/-- Chunking lemma: reading a list in `s`-sized slices at offsets `0, s, 2*s,
...` for enough chunks reproduces the list. -/
theorem flatten_chunks {α : Type} (s : Nat) :
    ∀ (m : Nat) (D : List α), D.length ≤ m * s →
      ((List.range m).map (fun i => (D.drop (i * s)).take s)).flatten = D := by
  intro m
  induction m with
  | zero =>
    intro D hD
    simp at hD
    simp [hD]
  | succ m ih =>
    intro D hD
    rw [List.range_succ_eq_map, List.map_cons, List.map_map, List.flatten_cons]
    have hrest : (List.map ((fun i => (D.drop (i * s)).take s) ∘ Nat.succ)
        (List.range m)).flatten = D.drop s := by
      have hcomp : ((fun i => (D.drop (i * s)).take s) ∘ Nat.succ) =
          (fun i => ((D.drop s).drop (i * s)).take s) := by
        funext i
        have hmul : Nat.succ i * s = s + i * s := by
          rw [Nat.succ_mul, Nat.add_comm]
        simp only [Function.comp_apply, List.drop_drop, hmul]
      rw [hcomp]
      apply ih
      rw [List.length_drop]
      calc D.length - s ≤ (m + 1) * s - s := Nat.sub_le_sub_right hD s
        _ = m * s := by rw [Nat.succ_mul, Nat.add_sub_cancel]
    rw [hrest]
    simp [List.take_append_drop]

/-- An empty task list gathers to the empty list under any completion
schedule. -/
theorem gather_nil (arrival : List Nat) : gather [] arrival = [] := by
  unfold gather permuteBy
  have h : arrival.filterMap (fun i => (List.enum ([] : List Json))[i]?) = [] := by
    induction arrival with
    | nil => rfl
    | cons a t ih => simp [List.filterMap_cons, ih]
  rw [h]
  rfl

/-- Reduction of `Except` bind on a success, used to unfold the embedded
do-blocks. -/
theorem ok_bind {A B : Type} (x : A) (f : A → Except PyErr B) :
    (Except.ok x >>= f) = f x := rfl

/-- Characterization of `fetch_courses` once the probe has succeeded and
delivered an integer `totalRows`. -/
theorem fetch_courses_eq (server : Server) (arrival : List Nat) (probe : Json) (total : Int)
    (hprobe : server 1 1 = .ok probe)
    (htot : (pySubscript probe "_page_" >>= fun p => pySubscript p "totalRows") =
      .ok (.num total)) :
    fetch_courses server arrival =
      match mapExcept (fetch_page server) (pageIndices (total_pages total)) with
      | .error e => ⟨(1, 1) :: (pageIndices (total_pages total)).map (fun p => (p, PAGE_SIZE)),
          .error e⟩
      | .ok datas =>
        match mapExcept pyIter (gather datas arrival) with
        | .error e => ⟨(1, 1) :: (pageIndices (total_pages total)).map (fun p => (p, PAGE_SIZE)),
            .error e⟩
        | .ok pages => ⟨(1, 1) :: (pageIndices (total_pages total)).map (fun p => (p, PAGE_SIZE)),
            .ok pages.flatten⟩ := by
  simp only [fetch_courses, hprobe, htot, ok_bind, asInt]

/-- The request log under a successful probe. -/
theorem fetch_requests_eq (server : Server) (arrival : List Nat) (probe : Json) (total : Int)
    (hprobe : server 1 1 = .ok probe)
    (htot : (pySubscript probe "_page_" >>= fun p => pySubscript p "totalRows") =
      .ok (.num total)) :
    (fetch_courses server arrival).requests =
      (1, 1) :: (pageIndices (total_pages total)).map (fun p => (p, PAGE_SIZE)) := by
  rw [fetch_courses_eq server arrival probe total hprobe htot]
  cases mapExcept (fetch_page server) (pageIndices (total_pages total)) with
  | error e => rfl
  | ok datas =>
    simp only []
    cases mapExcept pyIter (gather datas arrival) with
    | error e => rfl
    | ok pages => rfl

/-- The fetch result does not depend on the completion order of the page
tasks, as long as that order is a permutation of the task indices. -/
theorem fetch_result_arrival_indep (server : Server) (a1 a2 : List Nat) (probe : Json)
    (total : Int)
    (hprobe : server 1 1 = .ok probe)
    (htot : (pySubscript probe "_page_" >>= fun p => pySubscript p "totalRows") =
      .ok (.num total))
    (h1 : a1.Perm (List.range (pageIndices (total_pages total)).length))
    (h2 : a2.Perm (List.range (pageIndices (total_pages total)).length)) :
    fetch_courses server a1 = fetch_courses server a2 := by
  rw [fetch_courses_eq server a1 probe total hprobe htot,
      fetch_courses_eq server a2 probe total hprobe htot]
  cases hmap : mapExcept (fetch_page server) (pageIndices (total_pages total)) with
  | error e => rfl
  | ok datas =>
    have hlen : datas.length = (pageIndices (total_pages total)).length :=
      mapExcept_ok_length _ hmap
    simp only [gather_eq_of_perm datas a1 (by rw [hlen]; exact h1),
        gather_eq_of_perm datas a2 (by rw [hlen]; exact h2)]

/-- When the reported total is nonpositive the whole fetch degenerates: one
probe request, no page tasks, empty result. -/
theorem fetch_courses_of_nonpos (server : Server) (arrival : List Nat) (probe : Json)
    (total : Int)
    (hprobe : server 1 1 = .ok probe)
    (htot : (pySubscript probe "_page_" >>= fun p => pySubscript p "totalRows") =
      .ok (.num total))
    (hle : total ≤ 0) :
    fetch_courses server arrival = ⟨[(1, 1)], .ok []⟩ := by
  rw [fetch_courses_eq server arrival probe total hprobe htot]
  rw [pageIndices_nonpos (total_pages_nonpos hle)]
  simp only [show mapExcept (fetch_page server) ([] : List Nat) = .ok [] from rfl, gather_nil,
    show mapExcept pyIter ([] : List Json) = .ok [] from rfl, List.map_nil]
  rfl

/-- A demonstration server: the probe reports `total` rows, every other
request returns an empty data page. -/
def demoServer (total : Int) : Server := fun page size =>
  if page = 1 ∧ size = 1 then
    .ok (.obj [("_page_", .obj [("totalRows", .num total)]), ("data", .arr [])])
  else
    .ok (.obj [("data", .arr [])])

/-- C1: for a probe that reports `totalRows = total ≥ 0`, the derived page
count `(total + PAGE_SIZE - 1) // PAGE_SIZE` equals `ceil(total / PAGE_SIZE)`;
when `total = 0` no page request is issued and the result is the empty list;
when `total = 2500` the page count is 3 and exactly the page requests with
indices 1, 2, 3 (at the real page size) follow the single probe request. -/
theorem C1_page_count_derivation (server : Server) (arrival : List Nat) (total : Nat)
    (probe : Json)
    (hprobe : server 1 1 = .ok probe)
    (htot : (pySubscript probe "_page_" >>= fun p => pySubscript p "totalRows") =
      .ok (.num (total : Int))) :
    total_pages (total : Int) = ((total ⌈/⌉ PAGE_SIZE : Nat) : Int) ∧
    (total = 0 → fetch_courses server arrival = ⟨[(1, 1)], .ok []⟩) ∧
    (total = 2500 →
      total_pages (total : Int) = 3 ∧
      (fetch_courses server arrival).requests =
        [(1, 1), (1, PAGE_SIZE), (2, PAGE_SIZE), (3, PAGE_SIZE)]) := by
  refine ⟨total_pages_natCast total, ?_, ?_⟩
  · intro h0
    subst h0
    exact fetch_courses_of_nonpos server arrival probe _ hprobe htot (by norm_num)
  · intro h2500
    subst h2500
    refine ⟨by decide, ?_⟩
    rw [fetch_requests_eq server arrival probe _ hprobe htot]
    rfl

/-- Witness for C1 at `total = 2500` against a concrete server. -/
theorem C1_page_count_derivation_witness :
    (fetch_courses (demoServer 2500) [0, 1, 2]).requests =
      [(1, 1), (1, PAGE_SIZE), (2, PAGE_SIZE), (3, PAGE_SIZE)] :=
  ((C1_page_count_derivation (demoServer 2500) [0, 1, 2] 2500 _ rfl rfl).2.2 rfl).2

/-- C10: a nonpositive reported total (0 or a negative value from a
misbehaving server) derives a nonpositive page count, so the page range is
empty: only the probe request is issued and the result is the empty list. -/
theorem C10_nonpositive_total (server : Server) (arrival : List Nat) (probe : Json)
    (total : Int)
    (hprobe : server 1 1 = .ok probe)
    (htot : (pySubscript probe "_page_" >>= fun p => pySubscript p "totalRows") =
      .ok (.num total))
    (hle : total ≤ 0) :
    total_pages total ≤ 0 ∧
    (fetch_courses server arrival).requests = [(1, 1)] ∧
    (fetch_courses server arrival).result = .ok [] := by
  refine ⟨total_pages_nonpos hle, ?_, ?_⟩ <;>
    rw [fetch_courses_of_nonpos server arrival probe total hprobe htot hle]

/-- Witness for C10 against a server reporting `totalRows = -7`. -/
theorem C10_nonpositive_total_witness :
    total_pages (-7) ≤ 0 ∧
    (fetch_courses (demoServer (-7)) []).requests = [(1, 1)] ∧
    (fetch_courses (demoServer (-7)) []).result = .ok [] :=
  C10_nonpositive_total (demoServer (-7)) [] _ (-7) rfl rfl (by norm_num)

/-- When every page task succeeds with records `pageRecords p`, the fetch
returns the concatenation of the pages in ascending page-index order, for any
completion order of the tasks. -/
theorem fetch_result_pages (server : Server) (arrival : List Nat) (probe : Json) (total : Int)
    (pageRecords : Nat → List Json)
    (hprobe : server 1 1 = .ok probe)
    (htot : (pySubscript probe "_page_" >>= fun p => pySubscript p "totalRows") =
      .ok (.num total))
    (hpages : ∀ p ∈ pageIndices (total_pages total),
      fetch_page server p = .ok (.arr (pageRecords p)))
    (harr : arrival.Perm (List.range (pageIndices (total_pages total)).length)) :
    (fetch_courses server arrival).result =
      .ok ((pageIndices (total_pages total)).map pageRecords).flatten := by
  rw [fetch_courses_eq server arrival probe total hprobe htot]
  have hmap : mapExcept (fetch_page server) (pageIndices (total_pages total)) =
      .ok ((pageIndices (total_pages total)).map (fun p => Json.arr (pageRecords p))) :=
    mapExcept_ok_of_forall _ _ hpages
  simp only [hmap]
  have hlen : ((pageIndices (total_pages total)).map (fun p => Json.arr (pageRecords p))).length
      = (pageIndices (total_pages total)).length := List.length_map _ _
  rw [gather_eq_of_perm _ arrival (by rw [hlen]; exact harr)]
  have hiter : mapExcept pyIter
      ((pageIndices (total_pages total)).map (fun p => Json.arr (pageRecords p))) =
      .ok (((pageIndices (total_pages total)).map (fun p => Json.arr (pageRecords p))).map
        (fun x => match x with | .arr l => l | _ => [])) := by
    apply mapExcept_ok_of_forall
    intro x hx
    rcases List.mem_map.mp hx with ⟨p, _, rfl⟩
    rfl
  simp only [hiter, List.map_map]
  rfl

/-- A two-page demonstration server: the probe reports 1500 rows, page 1
holds the record `1`, page 2 the record `2`. -/
def twoPageServer : Server := fun page size =>
  if page = 1 ∧ size = 1 then .ok (.obj [("_page_", .obj [("totalRows", .num 1500)])])
  else if size = PAGE_SIZE ∧ page = 1 then .ok (.obj [("data", .arr [.num 1])])
  else if size = PAGE_SIZE ∧ page = 2 then .ok (.obj [("data", .arr [.num 2])])
  else .error .netError

/-- Records of the two-page demonstration server, by page index. -/
def twoPageRecords : Nat → List Json := fun p => if p = 1 then [.num 1] else [.num 2]

/-- C2: on a successful run the returned list is the concatenation of the
pages' record sequences in ascending page-index order, and the whole outcome
is identical for any two completion orders of the concurrent page tasks. -/
theorem C2_order_independent_aggregation (server : Server) (a1 a2 : List Nat) (probe : Json)
    (total : Int) (pageRecords : Nat → List Json)
    (hprobe : server 1 1 = .ok probe)
    (htot : (pySubscript probe "_page_" >>= fun p => pySubscript p "totalRows") =
      .ok (.num total))
    (hpages : ∀ p ∈ pageIndices (total_pages total),
      fetch_page server p = .ok (.arr (pageRecords p)))
    (h1 : a1.Perm (List.range (pageIndices (total_pages total)).length))
    (h2 : a2.Perm (List.range (pageIndices (total_pages total)).length)) :
    (fetch_courses server a1).result =
      .ok ((pageIndices (total_pages total)).map pageRecords).flatten ∧
    fetch_courses server a1 = fetch_courses server a2 :=
  ⟨fetch_result_pages server a1 probe total pageRecords hprobe htot hpages h1,
   fetch_result_arrival_indep server a1 a2 probe total hprobe htot h1 h2⟩

/-- Witness for C2: two pages, completion orders `[1, 0]` (page 2 first) and
`[0, 1]` (page 1 first) give the page-index-ordered aggregate either way. -/
theorem C2_order_independent_aggregation_witness :
    (fetch_courses twoPageServer [1, 0]).result =
      .ok ((pageIndices (total_pages 1500)).map twoPageRecords).flatten ∧
    fetch_courses twoPageServer [1, 0] = fetch_courses twoPageServer [0, 1] :=
  C2_order_independent_aggregation twoPageServer [1, 0] [0, 1] _ 1500 twoPageRecords
    rfl rfl
    (by intro p hp; fin_cases hp <;> rfl)
    (by decide) (by decide)

/-- Page slices of a static dataset glue back together: mapping the source's
1-based page indices over `(p-1)*PAGE_SIZE`-offset slices of `D` and
flattening reproduces `D`. -/
theorem flatten_page_slices (D : List Json) :
    ((List.range' 1 (D.length ⌈/⌉ PAGE_SIZE)).map
      (fun p => (D.drop ((p - 1) * PAGE_SIZE)).take PAGE_SIZE)).flatten = D := by
  rw [List.range'_eq_map_range, List.map_map]
  have hfun : ((fun p => (D.drop ((p - 1) * PAGE_SIZE)).take PAGE_SIZE) ∘ (fun x => 1 + x)) =
      (fun i => (D.drop (i * PAGE_SIZE)).take PAGE_SIZE) := by
    funext i
    have h1 : 1 + i - 1 = i := by omega
    simp only [Function.comp_apply, h1]
  rw [hfun]
  apply flatten_chunks
  have h1 : D.length ≤ PAGE_SIZE * (D.length ⌈/⌉ PAGE_SIZE) := by
    have h2 := le_smul_ceilDiv (a := PAGE_SIZE) (b := D.length) (by norm_num [PAGE_SIZE])
    simpa [smul_eq_mul] using h2
  exact le_of_le_of_eq h1 (Nat.mul_comm _ _)

/-- C3: against a static remote dataset `D` (page `p` serves the `p`-th
`PAGE_SIZE`-slice of `D`, the probe reports `totalRows = D.length`), a
successful fetch returns exactly `D`, so the aggregate length equals the
total row count observed at probe time. -/
theorem C3_static_dataset_length (server : Server) (arrival : List Nat) (probe : Json)
    (D : List Json)
    (hprobe : server 1 1 = .ok probe)
    (htot : (pySubscript probe "_page_" >>= fun p => pySubscript p "totalRows") =
      .ok (.num (D.length : Int)))
    (hpages : ∀ p ∈ pageIndices (total_pages (D.length : Int)),
      fetch_page server p = .ok (.arr ((D.drop ((p - 1) * PAGE_SIZE)).take PAGE_SIZE)))
    (harr : arrival.Perm (List.range (pageIndices (total_pages (D.length : Int))).length)) :
    (fetch_courses server arrival).result = .ok D ∧
    (∀ out, (fetch_courses server arrival).result = .ok out → out.length = D.length) := by
  have hres := fetch_result_pages server arrival probe (D.length : Int)
    (fun p => (D.drop ((p - 1) * PAGE_SIZE)).take PAGE_SIZE) hprobe htot hpages harr
  have hps : pageIndices (total_pages ((D.length : Nat) : Int)) =
      List.range' 1 (D.length ⌈/⌉ PAGE_SIZE) := by
    rw [total_pages_natCast, pageIndices_natCast]
  rw [hps, flatten_page_slices D] at hres
  refine ⟨hres, ?_⟩
  intro out hout
  rw [hres] at hout
  cases hout
  rfl

/-- A static three-record dataset server for the C3 witness. -/
def staticServer : Server := fun page size =>
  if page = 1 ∧ size = 1 then .ok (.obj [("_page_", .obj [("totalRows", .num 3)])])
  else if page = 1 ∧ size = PAGE_SIZE then
    .ok (.obj [("data", .arr [.num 1, .num 2, .num 3])])
  else .error .netError

/-- Witness for C3: the three-record static dataset is returned whole. -/
theorem C3_static_dataset_length_witness :
    (fetch_courses staticServer [0]).result = .ok [Json.num 1, Json.num 2, Json.num 3] :=
  (C3_static_dataset_length staticServer [0] _ [Json.num 1, Json.num 2, Json.num 3]
    rfl rfl (by intro p hp; fin_cases hp; rfl) (by decide)).1

theorem jlookup_eq_none {fields : List (String × Json)} {k : String}
    (h : ∀ kv ∈ fields, kv.1 ≠ k) : jlookup k fields = none := by
  induction fields with
  | nil => rfl
  | cons kv rest ih =>
    unfold jlookup
    rw [if_neg (h kv (List.mem_cons_self kv rest))]
    exact ih (fun kv' hkv' => h kv' (List.mem_cons_of_mem kv hkv'))

/-- Counterexample to C4 as stated: on a raw record whose teacher entry lacks
the `person` key — an absent source path — `transform` raises `KeyError`
instead of defaulting the field. -/
theorem C4_defaulting_counterexample :
    transform (.obj [("teacherAssignmentList", .arr [.obj []])]) =
      .error (.keyError "person") := rfl

/-- C4 (amended): `transform` never raises and defaults every field to its
neutral value (`""`, `""`, `""`, `0.0`, `""`) on any raw record in which the
four top-level source keys `course`, `code`, `teacherAssignmentList` and
`openDepartment` are all absent, whatever other keys the record carries; but
it is not total on records where those keys are present with unexpected
shapes, or where an entry of a present `teacherAssignmentList` lacks the
nested `person`/`nameZh` path. -/
theorem C4_missing_keys_default (fields : List (String × Json))
    (h : ∀ kv ∈ fields, kv.1 ≠ "course" ∧ kv.1 ≠ "code" ∧
      kv.1 ≠ "teacherAssignmentList" ∧ kv.1 ≠ "openDepartment") :
    transform (.obj fields) = .ok ⟨.str "", .str "", "", 0, .str ""⟩ := by
  have hc : jlookup "course" fields = none :=
    jlookup_eq_none (fun kv hkv => (h kv hkv).1)
  have hcode : jlookup "code" fields = none :=
    jlookup_eq_none (fun kv hkv => (h kv hkv).2.1)
  have htl : jlookup "teacherAssignmentList" fields = none :=
    jlookup_eq_none (fun kv hkv => (h kv hkv).2.2.1)
  have hod : jlookup "openDepartment" fields = none :=
    jlookup_eq_none (fun kv hkv => (h kv hkv).2.2.2)
  unfold transform
  simp only [pyGet, dictGet, hc, hcode, htl, hod, ok_bind]
  rfl

/-- Witness for C4 (amended), on a record with an unrelated key. -/
theorem C4_missing_keys_default_witness :
    transform (.obj [("unrelated", .num 7)]) = .ok ⟨.str "", .str "", "", 0, .str ""⟩ :=
  C4_missing_keys_default [("unrelated", .num 7)] (by intro kv hkv; fin_cases hkv; simp)

/-- The scenario teacher entry `{"person": {"nameZh": nm}}`. -/
def mkTeacher (nm : String) : Json := .obj [("person", .obj [("nameZh", .str nm)])]

theorem mapExcept_teacherName_map (names : List String) :
    mapExcept teacherName (names.map mkTeacher) = .ok names := by
  induction names with
  | nil => rfl
  | cons nm rest ih =>
    simp only [List.map_cons]
    unfold mapExcept
    rw [show teacherName (mkTeacher nm) = .ok nm from rfl, ih]

/-- C5: the documented scenario record transforms to exactly the documented
normalized record, and in general the teacher names are joined
comma-separated in their original relative order (preserved, not sorted). -/
theorem C5_transform_scenario :
    transform (.obj [("course", .obj [("nameZh", .str "Linear Algebra"), ("credits", .num 4)]),
        ("code", .str "MATH101"),
        ("teacherAssignmentList", .arr [mkTeacher "Zhang", mkTeacher "Li"]),
        ("openDepartment", .obj [("nameZh", .str "Math Dept")])]) =
      .ok ⟨.str "Linear Algebra", .str "MATH101", "Zhang,Li", 4, .str "Math Dept"⟩ ∧
    ∀ names : List String,
      transform (.obj [("teacherAssignmentList", .arr (names.map mkTeacher))]) =
        .ok ⟨.str "", .str "", String.intercalate "," names, 0, .str ""⟩ := by
  refine ⟨rfl, ?_⟩
  intro names
  have hblock : transform (.obj [("teacherAssignmentList", .arr (names.map mkTeacher))]) =
      (mapExcept teacherName (names.map mkTeacher)) >>= fun ns =>
        .ok ⟨.str "", .str "", String.intercalate "," ns, 0, .str ""⟩ := rfl
  rw [hblock, mapExcept_teacherName_map names]
  rfl

/-- The first request of every run is the probe `(page 1, page size 1)`. -/
theorem fetch_requests_head (server : Server) (arrival : List Nat) :
    (fetch_courses server arrival).requests.head? = some (1, 1) := by
  unfold fetch_courses
  split
  · rfl
  · split
    · rfl
    · dsimp only
      split
      · rfl
      · split
        · rfl
        · rfl

theorem one_mem_pageIndices {total : Int} (h : 1 ≤ total) :
    1 ∈ pageIndices (total_pages total) := by
  have htp : 1 ≤ total_pages total := by
    unfold total_pages
    rw [Int.fdiv_eq_ediv _ (by norm_num : (0 : Int) ≤ (PAGE_SIZE : Int))]
    rw [Int.le_ediv_iff_mul_le (by norm_num [PAGE_SIZE] : (0 : Int) < (PAGE_SIZE : Int))]
    norm_num [PAGE_SIZE]
    omega
  unfold pageIndices
  rw [if_neg (by omega)]
  rw [List.mem_range'_1]
  exact ⟨le_refl 1, by omega⟩

theorem pageIndices_nodup (tp : Int) : (pageIndices tp).Nodup := by
  unfold pageIndices
  split
  · exact List.nodup_nil
  · exact List.nodup_range' 1 tp.toNat

/-- A server whose probe response carries `extra` as its (ignored) `data`
segment and reports one row; page 1 at the real page size holds `77`. -/
def probeServer (extra : Json) : Server := fun page size =>
  if page = 1 ∧ size = 1 then
    .ok (.obj [("_page_", .obj [("totalRows", .num 1)]), ("data", extra)])
  else if page = 1 ∧ size = PAGE_SIZE then .ok (.obj [("data", .arr [.num 77])])
  else .error .netError

/-- C6: the probe comes first with page index 1 and effective page size 1;
only the `_page_.totalRows` field of its response matters — two servers whose
probe bodies differ arbitrarily but agree on that field, and which agree on
all real-page-size requests, produce identical outcomes (the probe's `data`
segment is discarded); and whenever at least one row is reported, page 1 is
fetched fresh at the real page size (the probe is not reused as page 1). -/
theorem C6_probe_metadata_only (s1 s2 : Server) (arrival : List Nat) (p1 p2 : Json)
    (total : Int)
    (hprobe1 : s1 1 1 = .ok p1) (hprobe2 : s2 1 1 = .ok p2)
    (htot1 : (pySubscript p1 "_page_" >>= fun p => pySubscript p "totalRows") =
      .ok (.num total))
    (htot2 : (pySubscript p2 "_page_" >>= fun p => pySubscript p "totalRows") =
      .ok (.num total))
    (hagree : ∀ page, s1 page PAGE_SIZE = s2 page PAGE_SIZE) :
    (∀ s : Server, ∀ a : List Nat, (fetch_courses s a).requests.head? = some (1, 1)) ∧
    fetch_courses s1 arrival = fetch_courses s2 arrival ∧
    (1 ≤ total → (1, PAGE_SIZE) ∈ (fetch_courses s1 arrival).requests) := by
  refine ⟨fetch_requests_head, ?_, ?_⟩
  · rw [fetch_courses_eq s1 arrival p1 total hprobe1 htot1,
        fetch_courses_eq s2 arrival p2 total hprobe2 htot2]
    have hfp : fetch_page s1 = fetch_page s2 := by
      funext p
      unfold fetch_page
      rw [hagree p]
    rw [hfp]
  · intro hone
    rw [fetch_requests_eq s1 arrival p1 total hprobe1 htot1]
    refine List.mem_cons_of_mem _ ?_
    exact List.mem_map.mpr ⟨1, one_mem_pageIndices hone, rfl⟩

/-- Witness for C6: two servers whose probes differ only in the discarded
`data` segment behave identically, and page 1 is re-fetched. -/
theorem C6_probe_metadata_only_witness :
    fetch_courses (probeServer (.arr [.num 99])) [0] =
      fetch_courses (probeServer (.str "junk")) [0] ∧
    (1, PAGE_SIZE) ∈ (fetch_courses (probeServer (.arr [.num 99])) [0]).requests := by
  have hagree : ∀ page, probeServer (.arr [.num 99]) page PAGE_SIZE =
      probeServer (.str "junk") page PAGE_SIZE := by
    intro page
    unfold probeServer
    have hfalse : ¬(page = 1 ∧ PAGE_SIZE = 1) := fun hx => by
      have := hx.2
      norm_num [PAGE_SIZE] at this
    rw [if_neg hfalse, if_neg hfalse]
  have h := C6_probe_metadata_only (probeServer (.arr [.num 99])) (probeServer (.str "junk"))
    [0] _ _ 1 rfl rfl rfl rfl hagree
  exact ⟨h.2.1, h.2.2 (by norm_num)⟩

/-- C7: with a successful probe, if any single page request fails — either at
the network layer (transport error, non-2xx status, malformed JSON, all of
which surface as a failing server response) or because the response is
well-formed JSON lacking the expected `data` field (the `["data"]` subscript
at crawler.py line 42 raises) — then the whole fetch fails: no partial
aggregate is returned, and the request log still contains each request
exactly once (no retry). -/
theorem C7_single_failure_fails_all (server : Server) (arrival : List Nat) (probe : Json)
    (total : Int) (p : Nat) (e : PyErr)
    (hprobe : server 1 1 = .ok probe)
    (htot : (pySubscript probe "_page_" >>= fun q => pySubscript q "totalRows") =
      .ok (.num total))
    (hp : p ∈ pageIndices (total_pages total))
    (hfail : server p PAGE_SIZE = .error e ∨
      ∃ body, server p PAGE_SIZE = .ok body ∧ pySubscript body "data" = .error e) :
    (∃ e', (fetch_courses server arrival).result = .error e') ∧
    (fetch_courses server arrival).requests =
      (1, 1) :: (pageIndices (total_pages total)).map (fun q => (q, PAGE_SIZE)) ∧
    (fetch_courses server arrival).requests.Nodup := by
  have hfp : fetch_page server p = .error e := by
    unfold fetch_page
    rcases hfail with hnet | ⟨body, hok, hdata⟩
    · rw [hnet]
      rfl
    · rw [hok]
      exact hdata
  rcases mapExcept_error_of_mem (fetch_page server) hp hfp with ⟨e', he'⟩
  refine ⟨⟨e', ?_⟩, fetch_requests_eq server arrival probe total hprobe htot, ?_⟩
  · rw [fetch_courses_eq server arrival probe total hprobe htot]
    simp only [he']
  · rw [fetch_requests_eq server arrival probe total hprobe htot]
    refine List.nodup_cons.mpr ⟨?_, ?_⟩
    · intro hmem
      rcases List.mem_map.mp hmem with ⟨q, _, hq⟩
      have : PAGE_SIZE = 1 := congrArg Prod.snd hq
      norm_num [PAGE_SIZE] at this
    · exact (pageIndices_nodup (total_pages total)).map
        (fun a b hab => congrArg Prod.fst hab)

/-- A server whose page request returns a 200 JSON body that lacks the
expected `data` field, after a successful probe. -/
def missingDataServer : Server := fun page size =>
  if page = 1 ∧ size = 1 then .ok (.obj [("_page_", .obj [("totalRows", .num 1)])])
  else .ok (.obj [("rows", .arr [])])

/-- Witness for C7 in the missing-`data`-field failure mode: one page whose
well-formed response has no `data` field fails the whole fetch. -/
theorem C7_single_failure_fails_all_witness :
    (∃ e', (fetch_courses missingDataServer [0]).result = .error e') ∧
    (fetch_courses missingDataServer [0]).requests =
      (1, 1) :: (pageIndices (total_pages 1)).map (fun q => (q, PAGE_SIZE)) ∧
    (fetch_courses missingDataServer [0]).requests.Nodup :=
  C7_single_failure_fails_all missingDataServer [0] _ 1 1 (.keyError "data") rfl rfl
    (by decide) (Or.inr ⟨.obj [("rows", .arr [])], rfl, rfl⟩)

/-- A server delivering one record that makes `transform` raise (its teacher
entry lacks the `person` key). -/
def badRecordServer : Server := fun page size =>
  if page = 1 ∧ size = 1 then .ok (.obj [("_page_", .obj [("totalRows", .num 1)])])
  else if page = 1 ∧ size = PAGE_SIZE then
    .ok (.obj [("data", .arr [.obj [("teacherAssignmentList", .arr [.obj []])]])])
  else .error .netError

/-- Counterexample to C8 as stated: a run in which the fetch succeeds but a
later step (the transform of a malformed record) fails exits non-zero, yet
the output file is **not** left untouched — `open(output, "w")` has already
created/emptied it before the transform list comprehension runs, so an empty
(truncated) file is left behind. -/
theorem C8_no_partial_file_counterexample :
    main_run badRecordServer [0] = ⟨1, .truncated⟩ ∧
    (FileState.truncated ≠ FileState.untouched) := ⟨rfl, by decide⟩

/-- C8 (amended): when the fetch itself fails, the process exits non-zero and
the output file is untouched (in particular no file is written when a page
request fails); when the fetch succeeds but some record's transform raises,
the process exits non-zero and the output file has been created/truncated
empty by `open(..., "w")` though no records were written to it; only a fully
successful run exits 0 and writes the serialized records. -/
theorem C8_failure_exit_and_file (server : Server) (arrival : List Nat) :
    (∀ e, (fetch_courses server arrival).result = .error e →
      main_run server arrival = ⟨1, .untouched⟩) ∧
    (∀ raw e, (fetch_courses server arrival).result = .ok raw →
      mapExcept transform raw = .error e →
      main_run server arrival = ⟨1, .truncated⟩) ∧
    (∀ raw recs, (fetch_courses server arrival).result = .ok raw →
      mapExcept transform raw = .ok recs →
      main_run server arrival = ⟨0, .written (serializeOutput recs)⟩) := by
  refine ⟨?_, ?_, ?_⟩
  · intro e he
    unfold main_run
    simp only [he]
  · intro raw e hraw he
    unfold main_run
    simp only [hraw, he]
  · intro raw recs hraw hrecs
    unfold main_run
    simp only [hraw, hrecs]

/-- A server that is entirely down. -/
def downServer : Server := fun _ _ => .error .netError

/-- Witness for C8 (amended): a failed fetch exits 1 and touches no file. -/
theorem C8_failure_exit_and_file_witness :
    main_run downServer [] = ⟨1, .untouched⟩ :=
  (C8_failure_exit_and_file downServer []).1 .netError rfl

/-- C9: the pipeline is deterministic in its inputs — two runs receiving
identical probe and page responses produce identical outcomes (exit code and
byte-for-byte output file content), whatever the completion orders of their
concurrent page tasks. -/
theorem C9_deterministic_pipeline (server : Server) (a1 a2 : List Nat) (probe : Json)
    (total : Int)
    (hprobe : server 1 1 = .ok probe)
    (htot : (pySubscript probe "_page_" >>= fun p => pySubscript p "totalRows") =
      .ok (.num total))
    (h1 : a1.Perm (List.range (pageIndices (total_pages total)).length))
    (h2 : a2.Perm (List.range (pageIndices (total_pages total)).length)) :
    main_run server a1 = main_run server a2 := by
  unfold main_run
  rw [fetch_result_arrival_indep server a1 a2 probe total hprobe htot h1 h2]

/-- Witness for C9 on the two-page server with opposite completion orders. -/
theorem C9_deterministic_pipeline_witness :
    main_run twoPageServer [1, 0] = main_run twoPageServer [0, 1] :=
  C9_deterministic_pipeline twoPageServer [1, 0] [0, 1] _ 1500 rfl rfl
    (by decide) (by decide)
